import Mathlib

/-!
# Data acquisition server: a shallow embedding of `src/main.cpp`

The server reads `\r\n`-terminated frames from a TCP connection, stores `LOG`
readings in one binary file per sensor and answers `GET` queries from those
files.  This development embeds the message handling of `main.cpp` as pure
functions over an explicit state and proves properties of it.

Conventions of the embedding

* `std::string` and `char` arrays are lists of `Char` (one `Char` per byte).
* An exception leaving a function is an `Exn` value (`Except`, or the `raised`
  field of an `Outcome`); nothing in `main.cpp` catches one.
* The C and C++ library routines whose result depends on the platform
  (floating point conversion, calendar conversion in the local time zone, the
  bytes that follow a `char[32]` array in memory) are the fields of `Lib`; the
  program is embedded for an arbitrary `Lib`.
* A file holds a sequence of whole `LogEntry` records; a trailing partial record
  is never decoded by `file.read` and is left out.
* The asynchronous operations of a session are counted in the state: a call of
  `async_read_until` or `async_write` adds an outstanding operation, and the
  completion handlers are the functions `read_handler` and `write_handler`.
-/

namespace DataAcquisition

/-! ## Bytes, C strings and streams -/

/-- The contents of a `std::string`. -/
abbrev Bytes := List Char

/-- The terminator of a C string. -/
def NUL : Char := Char.ofNat 0

/-- The exceptions `std::stoi` and `std::stod` throw. -/
inductive Exn where
  | invalid_argument
  | out_of_range
  deriving DecidableEq, Repr

deriving instance DecidableEq for Except

/-- The constant `INVALID_SENSOR_MESSAGE`. -/
def INVALID_SENSOR_MESSAGE : Bytes := "ERROR|INVALID_SENSOR_ID\r\n".toList

/-- The C string `s.c_str()` as seen by `strncpy`, `strtol`: the bytes before the first NUL. -/
def c_str (s : Bytes) : Bytes := s.takeWhile (fun c => c ≠ NUL)

/-- The array written by `std::strncpy(dest, src.c_str(), n)`: at most `n` bytes of the
source C string, padded with NUL up to `n` bytes; when the source has `n` bytes or more no
NUL is written. -/
def strncpy (src : Bytes) (n : Nat) : Bytes :=
  (c_str src).take n ++ List.replicate (n - (c_str src).length) NUL

/-- The `std::string` built from a `char` array by `std::string(const char*)`: the bytes up to
the first NUL, looked for in the array and then in the memory `after` it. -/
def string_of (array after : Bytes) : Bytes :=
  (array ++ after).takeWhile (fun c => c ≠ NUL)

/-- An `std::istringstream`: the bytes not yet extracted, and whether the stream is still
`good()` (no read has hit the end of the input). -/
structure IStream where
  rest : Bytes
  good : Bool
  deriving DecidableEq, Repr

/-- The stream `std::istringstream stream(s)`. -/
def IStream.of (s : Bytes) : IStream := ⟨s, true⟩

/-- The call `std::getline(stream, field, delim)`: the new value of `field` and the stream.
On a stream that is no longer good the sentry fails and `field` keeps its value. Otherwise
`field` is replaced by the bytes before the first `delim`, which is extracted and dropped;
when there is no `delim` everything is extracted and the stream stops being good. -/
def getline (stream : IStream) (field : Bytes) (delim : Char) : Bytes × IStream :=
  if stream.good then
    match stream.rest.dropWhile (fun c => c ≠ delim) with
    | [] => (stream.rest, ⟨[], false⟩)
    | _ :: after => (stream.rest.takeWhile (fun c => c ≠ delim), ⟨after, true⟩)
  else (field, stream)

/-- The predicate `isspace` of the C locale. -/
def isspace (c : Char) : Bool :=
  c = ' ' || c = '\t' || c = '\n' || c = '\r' || c = Char.ofNat 11 || c = Char.ofNat 12

/-- The value of a run of decimal digits. -/
def digits_value (ds : Bytes) : Nat :=
  ds.foldl (fun acc c => 10 * acc + (c.toNat - 48)) 0

/-- The largest `int`. -/
def INT_MAX : Int := 2147483647

/-- The smallest `int`. -/
def INT_MIN : Int := -2147483648

/-- The function `std::stoi(s)` (base 10): skips leading white space, reads an optional sign
and the longest run of digits; throws `invalid_argument` when there is no digit and
`out_of_range` when the value is not an `int`. What follows the digits is ignored. -/
def stoi (s : Bytes) : Except Exn Int :=
  let body := s.dropWhile isspace
  let negative := body.head? = some '-'
  let unsigned := if body.head? = some '-' ∨ body.head? = some '+' then body.tail else body
  let ds := unsigned.takeWhile Char.isDigit
  if ds = [] then .error .invalid_argument
  else
    let v : Int := if negative then - (digits_value ds : Int) else (digits_value ds : Int)
    if v < INT_MIN ∨ INT_MAX < v then .error .out_of_range else .ok v

/-! ## Library routines taken as parameters -/

/-- The fields of `std::tm` that `std::get_time` fills and `std::mktime` reads. -/
structure Tm where
  tm_sec : Int
  tm_min : Int
  tm_hour : Int
  tm_mday : Int
  tm_mon : Int
  tm_year : Int
  deriving DecidableEq, Repr

/-- The places where the program builds a `std::string` from a `char[32]` array. When the
array holds no NUL the constructor reads on into the memory behind it, which differs from
place to place. -/
inductive Site (D : Type) where
  /-- The array `entry.sensor_id` in `handle_message`, followed by the entry's other fields. -/
  | handle_entry (timestamp : Int) (reading : D)
  /-- The array `entry.sensor_id` in `store_log_data`. -/
  | store_entry (timestamp : Int) (reading : D)
  /-- The array `entry.sensor_id` of a record read back in `generate_response`. -/
  | read_entry (timestamp : Int) (reading : D)
  /-- The local array `sensor_id` of `handle_message`. -/
  | handle_request
  /-- The local array `sensor_id` of `generate_response`. -/
  | response_request

/-- The library and platform behaviour `main.cpp` relies on; `D` is the type `double`. -/
structure Lib (D : Type) where
  /-- The function `std::stod`: the value, or the exception thrown. -/
  stod : Bytes → Except Exn D
  /-- The function `std::to_string(double)`. -/
  to_string : D → Bytes
  /-- The `tm` left by `stream >> std::get_time(&tm, "%Y-%m-%dT%H:%M:%S")` on a zeroed `tm`. -/
  get_time : Bytes → Tm
  /-- The function `std::mktime` (local time zone). -/
  mktime : Tm → Int
  /-- The function `std::localtime`. -/
  localtime : Int → Tm
  /-- The text written by `std::put_time(tm, "%Y-%m-%dT%H:%M:%S")`. -/
  put_time : Tm → Bytes
  /-- The memory behind a `char[32]` array at each place a string is built from one. -/
  spill : Site D → Bytes

/-! ## Data model -/

/-- The packed struct `LogEntry`; `sensor_id` is the 32-byte array. -/
structure LogEntry (D : Type) where
  sensor_id : Bytes
  timestamp : Int
  reading : D
  deriving DecidableEq, Repr

/-- What opening `<id>.dat` finds: no file (an append creates it), a file with its records,
or a path that cannot be opened at all. -/
inductive FileState (D : Type) where
  | missing
  | data (records : List (LogEntry D))
  | blocked
  deriving DecidableEq, Repr

/-- The global `registered_ids`, the files on disk, and the state of one session: its
`input_buffer`, the outstanding `async_read_until` and `async_write` operations, the writes
that completed, and the lines printed on `std::cout` and `std::cerr`. -/
structure State (D : Type) where
  registered_ids : List Bytes
  files : Bytes → FileState D
  input_buffer : Bytes
  reads_pending : Nat
  writes_pending : List Bytes
  written : List Bytes
  cout : List Bytes
  cerr : List Bytes

/-- The state a call ends in, and the exception that left it, if any. -/
structure Outcome (D : Type) where
  state : State D
  raised : Option Exn

/-! ## Time conversion -/

/-- The function `parse_time`; a failed `get_time` is not checked. -/
def parse_time {D : Type} (lib : Lib D) (time_str : Bytes) : Int :=
  lib.mktime (lib.get_time time_str)

/-- The function `format_time`. -/
def format_time {D : Type} (lib : Lib D) (time : Int) : Bytes :=
  lib.put_time (lib.localtime time)

/-! ## Parsing -/

/-- The function `parse_log_entry`: the entry it fills, or the exception of `std::stod`. -/
def parse_log_entry {D : Type} (lib : Lib D) (log_msg : Bytes) : Except Exn (LogEntry D) :=
  let stream := IStream.of log_msg
  let (field, stream) := getline stream [] '|'
  let (field, stream) := getline stream field '|'
  let sensor_id := strncpy field 32
  let (field, stream) := getline stream field '|'
  let timestamp := parse_time lib field
  let (field, _) := getline stream field '|'
  match lib.stod field with
  | .error e => .error e
  | .ok reading => .ok ⟨sensor_id, timestamp, reading⟩

/-- The function `parse_request`: the array `sensor_id` and `record_count`, or the exception
of `std::stoi`. -/
def parse_request (request : Bytes) : Except Exn (Bytes × Int) :=
  let stream := IStream.of request
  let (field, stream) := getline stream [] '|'
  let (field, stream) := getline stream field '|'
  let sensor_id := strncpy field 32
  let (field, _) := getline stream field '|'
  match stoi field with
  | .error e => .error e
  | .ok record_count => .ok (sensor_id, record_count)

/-! ## Registry and log store -/

/-- The function `is_id_registered`. -/
def is_id_registered (ids : List Bytes) (id : Bytes) : Bool :=
  decide (id ∈ ids)

/-- The function `log_error`. -/
def log_error {D : Type} (s : State D) (error_msg : Bytes) : State D :=
  { s with cerr := s.cerr ++ [error_msg] }

/-- The files after `file.write` appended `entry` to `filename`. -/
def append_record {D : Type} (files : Bytes → FileState D) (filename : Bytes)
    (entry : LogEntry D) : Bytes → FileState D :=
  fun name =>
    if name = filename then
      match files filename with
      | .data records => .data (records ++ [entry])
      | _ => .data [entry]
    else files name

/-- The function `store_log_data`. -/
def store_log_data {D : Type} (lib : Lib D) (s : State D) (log : Bytes) : Outcome D :=
  match parse_log_entry lib log with
  | .error e => ⟨s, some e⟩
  | .ok entry =>
    let filename :=
      string_of entry.sensor_id (lib.spill (.store_entry entry.timestamp entry.reading))
        ++ ".dat".toList
    match s.files filename with
    | .blocked => ⟨log_error s "Erro ao salvar dados do log.".toList, none⟩
    | _ => ⟨{ s with files := append_record s.files filename entry }, none⟩

/-- The line `generate_response` adds for one record. -/
def response_line {D : Type} (lib : Lib D) (entry : LogEntry D) : Bytes :=
  "Sensor: ".toList
    ++ string_of entry.sensor_id (lib.spill (.read_entry entry.timestamp entry.reading))
    ++ ", Tempo: ".toList ++ format_time lib entry.timestamp
    ++ ", Valor: ".toList ++ lib.to_string entry.reading ++ "\n".toList

/-- The loop `while (file.read(...) && num_records-- > 0)` of `generate_response` over the
records left in the file: it ends when `file.read` finds no whole record or when the count is
used up (the count is not read again after the test that ends the loop). -/
def read_records {D : Type} (lib : Lib D) :
    List (LogEntry D) → Int → Bytes → Bytes
  | [], _, response => response
  | entry :: rest, num_records, response =>
    if num_records > 0 then
      read_records lib rest (num_records - 1) (response ++ response_line lib entry)
    else response

/-- The function `generate_response`: the response and the state (a failed open is logged),
or the exception of `std::stoi`. -/
def generate_response {D : Type} (lib : Lib D) (s : State D) (request : Bytes) :
    Except Exn (Bytes × State D) :=
  match parse_request request with
  | .error e => .error e
  | .ok (sensor_id, num_records) =>
    match s.files (string_of sensor_id (lib.spill .response_request) ++ ".dat".toList) with
    | .data records => .ok (read_records lib records num_records [], s)
    | _ => .ok ([], log_error s "Erro ao abrir arquivo para leitura.".toList)

/-! ## Session -/

/-- The method `Session::listen_for_messages`: one more `async_read_until` is outstanding. -/
def listen_for_messages {D : Type} (s : State D) : State D :=
  { s with reads_pending := s.reads_pending + 1 }

/-- The method `Session::send_message`: one more `async_write` is outstanding. -/
def send_message {D : Type} (s : State D) (msg : Bytes) : State D :=
  { s with writes_pending := s.writes_pending ++ [msg] }

/-- The method `Session::handle_message`. -/
def handle_message {D : Type} (lib : Lib D) (s : State D) (msg : Bytes) : Outcome D :=
  let command := msg.take 3
  if command = "LOG".toList then
    match parse_log_entry lib msg with
    | .error e => ⟨s, some e⟩
    | .ok entry =>
      let id := string_of entry.sensor_id (lib.spill (.handle_entry entry.timestamp entry.reading))
      let s1 :=
        if ¬ is_id_registered s.registered_ids id then
          { s with registered_ids := s.registered_ids ++ [id] }
        else s
      let stored := store_log_data lib s1 msg
      match stored.raised with
      | some e => ⟨stored.state, some e⟩
      | none => ⟨listen_for_messages stored.state, none⟩
  else if command = "GET".toList then
    match parse_request msg with
    | .error e => ⟨s, some e⟩
    | .ok (sensor_id, _) =>
      if ¬ is_id_registered s.registered_ids (string_of sensor_id (lib.spill .handle_request)) then
        ⟨listen_for_messages (send_message s INVALID_SENSOR_MESSAGE), none⟩
      else
        match generate_response lib s msg with
        | .error e => ⟨s, some e⟩
        | .ok (response, s1) => ⟨listen_for_messages (send_message s1 response), none⟩
  else ⟨listen_for_messages s, none⟩

/-- The completion handler of `async_read_until` when no error is reported: the operation is
no longer outstanding, `received_msg` takes every byte of `input_buffer` (the iterator runs to
the end of the buffer, `bytes_transferred` is not used), the message is printed and handled. -/
def read_handler {D : Type} (lib : Lib D) (s : State D) : Outcome D :=
  let received_msg := s.input_buffer
  handle_message lib
    { s with
      input_buffer := []
      reads_pending := s.reads_pending - 1
      cout := s.cout ++ ["Mensagem recebida: ".toList ++ received_msg] }
    received_msg

/-- The completion handler of `async_write` when no error is reported: the oldest outstanding
write is done, and the handler calls `listen_for_messages`. -/
def write_handler {D : Type} (s : State D) : State D :=
  match s.writes_pending with
  | [] => s
  | msg :: later =>
    listen_for_messages { s with writes_pending := later, written := s.written ++ [msg] }

/-- The outcome of handling the messages `msgs` one after the other; an exception ends it. -/
def handle_all {D : Type} (lib : Lib D) : State D → List Bytes → Outcome D
  | s, [] => ⟨s, none⟩
  | s, msg :: later =>
    match (handle_message lib s msg).raised with
    | some e => ⟨(handle_message lib s msg).state, some e⟩
    | none => handle_all lib (handle_message lib s msg).state later


/-! ## Frames on the wire -/

/-- The frame `LOG|<id>|<timestamp>|<reading>\r\n` as `read_handler` hands it over, the
delimiter `\r\n` included. -/
def log_frame (id timestamp reading : Bytes) : Bytes :=
  "LOG".toList ++ '|' :: (id ++ '|' :: (timestamp ++ '|' :: (reading ++ "\r\n".toList)))

/-- The frame `GET|<id>|<count>\r\n`, the delimiter included. -/
def get_frame (id count : Bytes) : Bytes :=
  "GET".toList ++ '|' :: (id ++ '|' :: (count ++ "\r\n".toList))

/-- A sensor identifier that fits the 32-byte array with its terminator and can stand in a
frame: at most 31 bytes, none of them `|` or NUL. -/
def valid_id (id : Bytes) : Prop :=
  id.length ≤ 31 ∧ '|' ∉ id ∧ NUL ∉ id

instance (id : Bytes) : Decidable (valid_id id) := by
  unfold valid_id
  infer_instance

/-- A record count as a frame writes it: a non-empty run of decimal digits. -/
def decimal (count : Bytes) : Prop :=
  count ≠ [] ∧ ∀ c ∈ count, c.isDigit = true

instance (count : Bytes) : Decidable (decimal count) := by
  unfold decimal
  infer_instance

/-- The line `Sensor: <id>, Tempo: <timestamp>, Valor: <reading>` of the protocol, ended by a
newline, for a record with the given fields. -/
def encoded_line {D : Type} (lib : Lib D) (id : Bytes) (timestamp : Int) (reading : D) : Bytes :=
  "Sensor: ".toList ++ id ++ ", Tempo: ".toList ++ format_time lib timestamp
    ++ ", Valor: ".toList ++ lib.to_string reading ++ "\n".toList

/-- A reading as a sensor submits it: the timestamp and reading fields of its `LOG` frame, and
the number the reading field stands for. -/
structure Submission (D : Type) where
  timestamp : Bytes
  reading : Bytes
  value : D

/-- The fields hold no `|`, and `std::stod` reads `value` from the reading field (which reaches
it with the frame's `\r\n` behind it). -/
def Submission.valid {D : Type} (lib : Lib D) (r : Submission D) : Prop :=
  '|' ∉ r.timestamp ∧ '|' ∉ r.reading ∧ lib.stod (r.reading ++ "\r\n".toList) = .ok r.value

instance {D : Type} [DecidableEq D] (lib : Lib D) (r : Submission D) :
    Decidable (r.valid lib) := by
  unfold Submission.valid
  infer_instance

/-- The `LOG` frame of a submission for the sensor `id`. -/
def Submission.frame {D : Type} (id : Bytes) (r : Submission D) : Bytes :=
  log_frame id r.timestamp r.reading

/-- The record `parse_log_entry` decodes from the frame of a submission. -/
def Submission.entry {D : Type} (lib : Lib D) (id : Bytes) (r : Submission D) : LogEntry D :=
  ⟨strncpy id 32, parse_time lib r.timestamp, r.value⟩

/-- The records a file holds; none when there is no file. -/
def FileState.records {D : Type} : FileState D → List (LogEntry D)
  | .data records => records
  | _ => []

namespace Reference

/-- The function `std::stod` on plain decimal numbers (an optional sign, digits, an optional
fraction), in millionths, further decimals cut off. -/
def stod (s : Bytes) : Except Exn Int :=
  let body := s.dropWhile isspace
  let negative := body.head? = some '-'
  let unsigned := if body.head? = some '-' ∨ body.head? = some '+' then body.tail else body
  let whole := unsigned.takeWhile Char.isDigit
  let after := unsigned.dropWhile Char.isDigit
  let frac := if after.head? = some '.' then after.tail.takeWhile Char.isDigit else []
  if whole = [] ∧ frac = [] then .error .invalid_argument
  else
    let micro : Int :=
      digits_value whole * 1000000 + digits_value ((frac ++ List.replicate 6 '0').take 6)
    .ok (if negative then - micro else micro)

/-- The decimal digits of `n`, padded with zeros to `width` digits. -/
def pad (width n : Nat) : Bytes :=
  List.replicate (width - (Nat.toDigits 10 n).length) '0' ++ Nat.toDigits 10 n

/-- The function `std::to_string(double)`: the format `%f`, six decimals. -/
def to_string (micro : Int) : Bytes :=
  (if micro < 0 then ['-'] else [])
    ++ Nat.toDigits 10 (micro.natAbs / 1000000) ++ ['.'] ++ pad 6 (micro.natAbs % 1000000)

/-- Reads a number of at most `width` digits that lies in `lo..hi`. -/
def read_number (width lo hi : Nat) (s : Bytes) : Option (Int × Bytes) :=
  let ds := (s.take width).takeWhile Char.isDigit
  if ds = [] ∨ digits_value ds < lo ∨ hi < digits_value ds then none
  else some (digits_value ds, s.drop ds.length)

/-- Reads the literal byte `c`. -/
def expect (c : Char) (s : Bytes) : Option Bytes :=
  match s with
  | d :: rest => if d = c then some rest else none
  | [] => none

/-- The manipulator `std::get_time(&tm, "%Y-%m-%dT%H:%M:%S")` on a zeroed `tm`: the fields
read before the first mismatch are set, the others stay zero. -/
def get_time (s : Bytes) : Tm :=
  let tm : Tm := ⟨0, 0, 0, 0, 0, 0⟩
  match read_number 4 0 9999 s with
  | none => tm
  | some (year, s) =>
  let tm := { tm with tm_year := year - 1900 }
  match (expect '-' s).bind (read_number 2 1 12) with
  | none => tm
  | some (month, s) =>
  let tm := { tm with tm_mon := month - 1 }
  match (expect '-' s).bind (read_number 2 1 31) with
  | none => tm
  | some (day, s) =>
  let tm := { tm with tm_mday := day }
  match (expect 'T' s).bind (read_number 2 0 23) with
  | none => tm
  | some (hour, s) =>
  let tm := { tm with tm_hour := hour }
  match (expect ':' s).bind (read_number 2 0 59) with
  | none => tm
  | some (minute, s) =>
  let tm := { tm with tm_min := minute }
  match (expect ':' s).bind (read_number 2 0 60) with
  | none => tm
  | some (second, _) => { tm with tm_sec := second }

/-- The days from 1970-01-01 to the first day of month `m` (1 to 12) of year `y`. -/
def days_from_civil (y m : Int) : Int :=
  let y := if m ≤ 2 then y - 1 else y
  let era := y / 400
  let yoe := y - era * 400
  let doy := (153 * (if m > 2 then m - 3 else m + 9) + 2) / 5
  era * 146097 + (yoe * 365 + yoe / 4 - yoe / 100 + doy) - 719468

/-- The function `std::mktime` in UTC. -/
def mktime (tm : Tm) : Int :=
  let year := tm.tm_year + 1900 + tm.tm_mon / 12
  let days := days_from_civil year (tm.tm_mon % 12 + 1) + (tm.tm_mday - 1)
  days * 86400 + tm.tm_hour * 3600 + tm.tm_min * 60 + tm.tm_sec

/-- The function `std::localtime` in UTC. -/
def localtime (t : Int) : Tm :=
  let z := t / 86400 + 719468
  let secs := t % 86400
  let era := z / 146097
  let doe := z - era * 146097
  let yoe := (doe - doe / 1460 + doe / 36524 - doe / 146096) / 365
  let doy := doe - (365 * yoe + yoe / 4 - yoe / 100)
  let mp := (5 * doy + 2) / 153
  let month := if mp < 10 then mp + 3 else mp - 9
  let year := yoe + era * 400 + (if month ≤ 2 then 1 else 0)
  ⟨secs % 60, secs / 60 % 60, secs / 3600, doy - (153 * mp + 2) / 5 + 1, month - 1, year - 1900⟩

/-- The manipulator `std::put_time(tm, "%Y-%m-%dT%H:%M:%S")`. -/
def put_time (tm : Tm) : Bytes :=
  (if tm.tm_year + 1900 < 0 then ['-'] else []) ++ Nat.toDigits 10 (tm.tm_year + 1900).natAbs
    ++ ['-'] ++ pad 2 (tm.tm_mon + 1).natAbs ++ ['-'] ++ pad 2 tm.tm_mday.natAbs
    ++ ['T'] ++ pad 2 tm.tm_hour.natAbs ++ [':'] ++ pad 2 tm.tm_min.natAbs
    ++ [':'] ++ pad 2 tm.tm_sec.natAbs

/-- The eight bytes of a `time_t`, least significant first. -/
def time_bytes (t : Int) : Bytes :=
  (List.range 8).map (fun i => Char.ofNat ((t % 18446744073709551616).toNat / 256 ^ i % 256))

/-- The memory behind a `char[32]` array: the entry's `timestamp` for the array of a
`LogEntry`, a zero byte for a local array. -/
def spill : Site Int → Bytes
  | .handle_entry timestamp _ => time_bytes timestamp
  | .store_entry timestamp _ => time_bytes timestamp
  | .read_entry timestamp _ => time_bytes timestamp
  | .handle_request => []
  | .response_request => []

/-- The reference platform. -/
def lib : Lib Int := ⟨stod, to_string, get_time, mktime, localtime, put_time, spill⟩

/-- A server that has just started, on a disk without files: nothing registered, the session
has called `start`. -/
def fresh : State Int := ⟨[], fun _ => .missing, [], 1, [], [], [], []⟩

/-- A server restarted over the disk of an earlier run: nothing is registered, and `s1.dat`
holds one record of sensor `s1`, the reading 1.0 taken at 2023-06-01T12:00:00. -/
def restarted : State Int :=
  { fresh with
    files := fun name =>
      if name = "s1.dat".toList then .data [⟨strncpy "s1".toList 32, 1685620800, 1000000⟩]
      else .missing }

/-- A server started on a disk where no file can be opened or created. -/
def locked : State Int := { fresh with files := fun _ => .blocked }

end Reference

/-! ## Scanning lemmas -/

theorem takeWhile_stop {α : Type} (p : α → Bool) (a r : List α) (d : α)
    (ha : ∀ x ∈ a, p x = true) (hd : p d = false) : (a ++ d :: r).takeWhile p = a := by
  induction a with
  | nil => simp [List.takeWhile_cons, hd]
  | cons x xs ih =>
    have hx : p x = true := ha x (List.mem_cons_self x xs)
    have hxs : ∀ y ∈ xs, p y = true := fun y hy => ha y (List.mem_cons_of_mem x hy)
    simp [List.takeWhile_cons, hx, ih hxs]

theorem dropWhile_stop {α : Type} (p : α → Bool) (a r : List α) (d : α)
    (ha : ∀ x ∈ a, p x = true) (hd : p d = false) : (a ++ d :: r).dropWhile p = d :: r := by
  induction a with
  | nil => simp [List.dropWhile_cons, hd]
  | cons x xs ih =>
    have hx : p x = true := ha x (List.mem_cons_self x xs)
    have hxs : ∀ y ∈ xs, p y = true := fun y hy => ha y (List.mem_cons_of_mem x hy)
    simp [List.dropWhile_cons, hx, ih hxs]

theorem takeWhile_all {α : Type} (p : α → Bool) (a : List α)
    (ha : ∀ x ∈ a, p x = true) : a.takeWhile p = a := by
  induction a with
  | nil => rfl
  | cons x xs ih =>
    have hx : p x = true := ha x (List.mem_cons_self x xs)
    have hxs : ∀ y ∈ xs, p y = true := fun y hy => ha y (List.mem_cons_of_mem x hy)
    simp [List.takeWhile_cons, hx, ih hxs]

theorem dropWhile_all {α : Type} (p : α → Bool) (a : List α)
    (ha : ∀ x ∈ a, p x = true) : a.dropWhile p = [] := by
  induction a with
  | nil => rfl
  | cons x xs ih =>
    have hx : p x = true := ha x (List.mem_cons_self x xs)
    have hxs : ∀ y ∈ xs, p y = true := fun y hy => ha y (List.mem_cons_of_mem x hy)
    simp [List.dropWhile_cons, hx, ih hxs]

theorem ne_of_not_mem (a : Bytes) (d : Char) (h : d ∉ a) :
    ∀ x ∈ a, (fun c => decide (c ≠ d)) x = true := by
  intro x hx
  have : x ≠ d := fun e => h (e ▸ hx)
  simpa using this

theorem getline_field (a r f : Bytes) (d : Char) (h : d ∉ a) :
    getline ⟨a ++ d :: r, true⟩ f d = (a, ⟨r, true⟩) := by
  have h1 := dropWhile_stop (fun c => decide (c ≠ d)) a r d (ne_of_not_mem a d h) (by simp)
  have h2 := takeWhile_stop (fun c => decide (c ≠ d)) a r d (ne_of_not_mem a d h) (by simp)
  simp only [getline, if_true, h1, h2]

theorem getline_last (a f : Bytes) (d : Char) (h : d ∉ a) :
    getline ⟨a, true⟩ f d = (a, ⟨[], false⟩) := by
  have h1 := dropWhile_all (fun c => decide (c ≠ d)) a (ne_of_not_mem a d h)
  simp only [getline, if_true, h1]

/-! ## C strings -/

theorem c_str_no_nul (s : Bytes) : NUL ∉ c_str s := by
  intro h
  have := List.mem_takeWhile_imp h
  simp at this

theorem c_str_of_no_nul (s : Bytes) (h : NUL ∉ s) : c_str s = s :=
  takeWhile_all _ s (ne_of_not_mem s NUL h)

theorem strncpy_short (id : Bytes) (hlen : (c_str id).length ≤ 31) :
    strncpy id 32 = c_str id ++ List.replicate (32 - (c_str id).length) NUL := by
  unfold strncpy
  rw [List.take_of_length_le (by omega)]

theorem string_of_strncpy_c_str (id after : Bytes) (hlen : (c_str id).length ≤ 31) :
    string_of (strncpy id 32) after = c_str id := by
  have hpad : List.replicate (32 - (c_str id).length) NUL
      = NUL :: List.replicate (31 - (c_str id).length) NUL := by
    have : 32 - (c_str id).length = (31 - (c_str id).length) + 1 := by omega
    rw [this, List.replicate_succ]
  unfold string_of
  rw [strncpy_short id hlen, hpad, List.append_assoc, List.cons_append]
  exact takeWhile_stop _ (c_str id) _ NUL (ne_of_not_mem _ NUL (c_str_no_nul id)) (by simp)

theorem string_of_strncpy (id after : Bytes) (hlen : id.length ≤ 31) (hnul : NUL ∉ id) :
    string_of (strncpy id 32) after = id := by
  have hc := c_str_of_no_nul id hnul
  have := string_of_strncpy_c_str id after (by rw [hc]; exact hlen)
  rwa [hc] at this

/-! ## Parsing a frame -/

theorem take_get_frame (id count : Bytes) : (get_frame id count).take 3 = "GET".toList := rfl

theorem take_log_frame (id ts rd : Bytes) : (log_frame id ts rd).take 3 = "LOG".toList := rfl

theorem parse_log_entry_frame {D : Type} (lib : Lib D) (id ts rd : Bytes)
    (hid : '|' ∉ id) (hts : '|' ∉ ts) (hrd : '|' ∉ rd) :
    parse_log_entry lib (log_frame id ts rd) =
      match lib.stod (rd ++ "\r\n".toList) with
      | .error e => .error e
      | .ok v => .ok ⟨strncpy id 32, parse_time lib ts, v⟩ := by
  have h0 : '|' ∉ "LOG".toList := by decide
  have h4 : '|' ∉ rd ++ "\r\n".toList := by
    intro h
    rcases List.mem_append.1 h with h | h
    · exact hrd h
    · exact absurd h (by decide)
  simp only [parse_log_entry, log_frame, IStream.of, getline_field _ _ _ _ h0,
    getline_field _ _ _ _ hid, getline_field _ _ _ _ hts, getline_last _ _ _ h4]

theorem isDigit_not_space (c : Char) (h : c.isDigit = true) : isspace c = false := by
  have ne : ∀ d : Char, d.isDigit = false → c ≠ d := fun d hd e => by
    rw [e, hd] at h; exact absurd h (by decide)
  simp [isspace, ne ' ' (by decide), ne '\t' (by decide), ne '\n' (by decide),
    ne '\r' (by decide), ne (Char.ofNat 11) (by decide), ne (Char.ofNat 12) (by decide)]

theorem stoi_decimal (count : Bytes) (h : decimal count)
    (hmax : (digits_value count : Int) ≤ INT_MAX) :
    stoi (count ++ "\r\n".toList) = .ok (digits_value count) := by
  obtain ⟨hne, hd⟩ := h
  obtain ⟨c, cs, rfl⟩ := List.exists_cons_of_ne_nil hne
  have hc : c.isDigit = true := hd c (List.mem_cons_self c cs)
  have hsp : isspace c = false := isDigit_not_space c hc
  have hminus : c ≠ '-' := fun e => by rw [e] at hc; exact absurd hc (by decide)
  have hplus : c ≠ '+' := fun e => by rw [e] at hc; exact absurd hc (by decide)
  have hbody : (c :: cs ++ "\r\n".toList).dropWhile isspace = c :: cs ++ "\r\n".toList := by
    simp [List.dropWhile_cons, hsp]
  have htake : (c :: cs ++ "\r\n".toList).takeWhile Char.isDigit = c :: cs :=
    takeWhile_stop Char.isDigit (c :: cs) ['\n'] '\r' hd (by decide)
  have hmin : ¬ ((digits_value (c :: cs) : Int) < INT_MIN) := by
    have : (0 : Int) ≤ (digits_value (c :: cs) : Int) := Int.ofNat_nonneg _
    unfold INT_MIN
    omega
  unfold stoi
  simp only [hbody]
  simp only [List.cons_append, List.head?_cons, Option.some.injEq, hminus, hplus, or_self,
    if_false, decide_False]
  rw [← List.cons_append, htake]
  simp [hmin, not_lt.2 hmax]

theorem parse_request_frame (id count : Bytes) (hid : '|' ∉ id) (hcount : decimal count)
    (hmax : (digits_value count : Int) ≤ INT_MAX) :
    parse_request (get_frame id count) = .ok (strncpy id 32, digits_value count) := by
  have h0 : '|' ∉ "GET".toList := by decide
  have h3 : '|' ∉ count ++ "\r\n".toList := by
    intro h
    rcases List.mem_append.1 h with h | h
    · exact absurd (hcount.2 _ h) (by decide)
    · exact absurd h (by decide)
  simp only [parse_request, get_frame, IStream.of, getline_field _ _ _ _ h0,
    getline_field _ _ _ _ hid, getline_last _ _ _ h3, stoi_decimal count hcount hmax]

/-! ## Handling a `LOG` frame -/

theorem append_record_same {D : Type} (files : Bytes → FileState D) (filename : Bytes)
    (entry : LogEntry D) :
    append_record files filename entry filename = .data ((files filename).records ++ [entry]) := by
  unfold append_record
  cases h : files filename <;> simp [FileState.records]

theorem store_log_data_frame {D : Type} (lib : Lib D) (s : State D) (id : Bytes)
    (r : Submission D) (hid : valid_id id) (hr : r.valid lib)
    (hfile : s.files (id ++ ".dat".toList) ≠ .blocked) :
    store_log_data lib s (r.frame id) =
      ⟨{ s with files := append_record s.files (id ++ ".dat".toList) (r.entry lib id) }, none⟩ := by
  obtain ⟨hlen, hpipe, hnul⟩ := hid
  obtain ⟨hts, hrd, hv⟩ := hr
  have hparse := parse_log_entry_frame lib id r.timestamp r.reading hpipe hts hrd
  rw [hv] at hparse
  simp only at hparse
  simp only [store_log_data, Submission.frame, hparse, string_of_strncpy id _ hlen hnul]
  cases h : s.files (id ++ ".dat".toList) with
  | blocked => exact absurd h hfile
  | missing => rfl
  | data records => rfl

theorem parse_submission {D : Type} (lib : Lib D) (id : Bytes) (r : Submission D)
    (hid : valid_id id) (hr : r.valid lib) :
    parse_log_entry lib (r.frame id) = .ok (r.entry lib id) := by
  have hparse := parse_log_entry_frame lib id r.timestamp r.reading hid.2.1 hr.1 hr.2.1
  rw [hr.2.2] at hparse
  exact hparse

theorem handle_message_log {D : Type} (lib : Lib D) (s : State D) (id : Bytes)
    (r : Submission D) (hid : valid_id id) (hr : r.valid lib)
    (hfile : s.files (id ++ ".dat".toList) ≠ .blocked) :
    handle_message lib s (r.frame id) =
      ⟨{ s with
          registered_ids :=
            if id ∈ s.registered_ids then s.registered_ids else s.registered_ids ++ [id]
          files := append_record s.files (id ++ ".dat".toList) (r.entry lib id)
          reads_pending := s.reads_pending + 1 }, none⟩ := by
  have htag : (r.frame id).take 3 = "LOG".toList := rfl
  simp only [handle_message, htag, if_true, parse_submission lib id r hid hr, Submission.entry,
    string_of_strncpy id _ hid.1 hid.2.2, is_id_registered]
  by_cases hreg : id ∈ s.registered_ids
  · simp only [hreg, decide_True, not_true, if_false, if_true]
    rw [store_log_data_frame lib s id r hid hr hfile]
    rfl
  · simp only [hreg, decide_False, Bool.false_eq_true, not_false_eq_true, if_true, if_false]
    rw [store_log_data_frame lib { s with registered_ids := s.registered_ids ++ [id] } id r hid hr
      hfile]
    rfl

theorem handle_all_logs {D : Type} (lib : Lib D) (id : Bytes) (hid : valid_id id)
    (rs : List (Submission D)) (hrs : ∀ r ∈ rs, r.valid lib) :
    ∀ s : State D, s.files (id ++ ".dat".toList) ≠ .blocked →
      (handle_all lib s (rs.map (Submission.frame id))).raised = none
        ∧ (handle_all lib s (rs.map (Submission.frame id))).state.writes_pending
            = s.writes_pending
        ∧ (rs ≠ [] → id ∈ (handle_all lib s (rs.map (Submission.frame id))).state.registered_ids)
        ∧ (rs ≠ [] → (handle_all lib s (rs.map (Submission.frame id))).state.files
              (id ++ ".dat".toList)
            = .data ((s.files (id ++ ".dat".toList)).records
                ++ rs.map (Submission.entry lib id))) := by
  induction rs with
  | nil => intro s _; simp [handle_all]
  | cons r rest ih =>
    intro s hfile
    have hr : r.valid lib := hrs r (List.mem_cons_self r rest)
    have hrest : ∀ x ∈ rest, x.valid lib := fun x hx => hrs x (List.mem_cons_of_mem r hx)
    have hstep := handle_message_log lib s id r hid hr hfile
    have hunfold : handle_all lib s ((r :: rest).map (Submission.frame id))
        = handle_all lib (handle_message lib s (r.frame id)).state
            (rest.map (Submission.frame id)) := by
      rw [List.map_cons]
      conv => lhs; unfold handle_all
      rw [hstep]
    rw [hunfold, hstep]
    simp only
    have hfile1 : append_record s.files (id ++ ".dat".toList) (r.entry lib id)
        (id ++ ".dat".toList) ≠ .blocked := by
      rw [append_record_same]; simp
    obtain ⟨h1, h2, h3, h4⟩ := ih hrest
      { s with
        registered_ids :=
          if id ∈ s.registered_ids then s.registered_ids else s.registered_ids ++ [id]
        files := append_record s.files (id ++ ".dat".toList) (r.entry lib id)
        reads_pending := s.reads_pending + 1 } hfile1
    refine ⟨h1, h2, ?_, ?_⟩
    · intro _
      by_cases hne : rest = []
      · subst hne
        simp only [List.map_nil, handle_all]
        by_cases hreg : id ∈ s.registered_ids <;> simp [hreg]
      · exact h3 hne
    · intro _
      by_cases hne : rest = []
      · subst hne
        simp only [List.map_nil, handle_all, append_record_same, List.map_cons]
      · rw [h4 hne]
        simp only [append_record_same, FileState.records, List.map_cons, List.append_assoc,
          List.singleton_append]

/-! ## Handling a `GET` frame -/

theorem response_line_entry {D : Type} (lib : Lib D) (id : Bytes) (r : Submission D)
    (hid : valid_id id) :
    response_line lib (r.entry lib id) = encoded_line lib id (parse_time lib r.timestamp) r.value := by
  simp only [response_line, encoded_line, Submission.entry, string_of_strncpy id _ hid.1 hid.2.2]

theorem read_records_take {D : Type} (lib : Lib D) (records : List (LogEntry D)) :
    ∀ (n : Nat) (response : Bytes),
      read_records lib records (n : Int) response
        = response ++ ((records.take n).map (response_line lib)).flatten := by
  induction records with
  | nil => intro n response; simp [read_records]
  | cons entry rest ih =>
    intro n response
    cases n with
    | zero => simp [read_records]
    | succ k =>
      have hpos : ((k + 1 : Nat) : Int) > 0 := by omega
      have hpred : ((k + 1 : Nat) : Int) - 1 = (k : Int) := by omega
      rw [read_records, if_pos hpos, hpred, ih k]
      simp [List.take_succ_cons, List.append_assoc]

theorem handle_message_get {D : Type} (lib : Lib D) (s : State D) (id count : Bytes)
    (hid : valid_id id) (hcount : decimal count) (hmax : (digits_value count : Int) ≤ INT_MAX)
    (hreg : id ∈ s.registered_ids) (records : List (LogEntry D))
    (hfile : s.files (id ++ ".dat".toList) = .data records) :
    handle_message lib s (get_frame id count) =
      ⟨{ s with
          writes_pending :=
            s.writes_pending ++ [((records.take (digits_value count)).map
              (response_line lib)).flatten]
          reads_pending := s.reads_pending + 1 }, none⟩ := by
  have hne : "GET".toList ≠ "LOG".toList := by decide
  simp only [handle_message, take_get_frame, hne, if_false, if_true,
    parse_request_frame id count hid.2.1 hcount hmax,
    string_of_strncpy id _ hid.1 hid.2.2, is_id_registered, hreg, decide_True, not_true,
    generate_response, hfile, read_records_take, List.nil_append]
  rfl

/-! ## What `handle_message` leaves alone -/

theorem store_log_data_input_buffer {D : Type} (lib : Lib D) (s : State D) (msg : Bytes) :
    (store_log_data lib s msg).state.input_buffer = s.input_buffer := by
  unfold store_log_data
  split
  · rfl
  · simp only
    split <;> rfl

theorem generate_response_input_buffer {D : Type} (lib : Lib D) (s s1 : State D)
    (msg response : Bytes) (h : generate_response lib s msg = .ok (response, s1)) :
    s1.input_buffer = s.input_buffer := by
  unfold generate_response at h
  split at h
  · exact absurd h (by simp)
  · split at h
    · simp only [Except.ok.injEq, Prod.mk.injEq] at h
      rw [← h.2]
    · simp only [Except.ok.injEq, Prod.mk.injEq] at h
      rw [← h.2]
      rfl

theorem handle_message_input_buffer {D : Type} (lib : Lib D) (s : State D) (msg : Bytes) :
    (handle_message lib s msg).state.input_buffer = s.input_buffer := by
  unfold handle_message
  simp only
  split
  · split
    · rfl
    · have hstore : ∀ s1 : State D,
          (match (store_log_data lib s1 msg).raised with
            | some e => (⟨(store_log_data lib s1 msg).state, some e⟩ : Outcome D)
            | none => ⟨listen_for_messages (store_log_data lib s1 msg).state, none⟩
          ).state.input_buffer = s1.input_buffer := by
        intro s1
        split
        · exact store_log_data_input_buffer lib s1 msg
        · exact store_log_data_input_buffer lib s1 msg
      rw [hstore]
      split <;> rfl
  · split
    · split
      · rfl
      · split
        · rfl
        · split
          · rfl
          · rename_i h
            have := generate_response_input_buffer lib s _ msg _ h
            simpa [listen_for_messages, send_message] using this
    · rfl

/-! ## Reads and writes of a session -/

theorem generate_response_session {D : Type} (lib : Lib D) (s s1 : State D)
    (msg response : Bytes) (h : generate_response lib s msg = .ok (response, s1)) :
    s1.reads_pending = s.reads_pending ∧ s1.writes_pending = s.writes_pending := by
  unfold generate_response at h
  split at h
  · exact absurd h (by simp)
  · split at h
    · simp only [Except.ok.injEq, Prod.mk.injEq] at h
      rw [← h.2]
      exact ⟨rfl, rfl⟩
    · simp only [Except.ok.injEq, Prod.mk.injEq] at h
      rw [← h.2]
      exact ⟨rfl, rfl⟩

theorem answered_get_arms_read {D : Type} (lib : Lib D) (s : State D) (msg : Bytes)
    (htag : msg.take 3 = "GET".toList) (hret : (handle_message lib s msg).raised = none) :
    (handle_message lib s msg).state.reads_pending = s.reads_pending + 1
      ∧ (handle_message lib s msg).state.writes_pending.length
          = s.writes_pending.length + 1 := by
  have hne : "GET".toList ≠ "LOG".toList := by decide
  cases hparse : parse_request msg with
  | error e =>
    simp only [handle_message, htag, hne, if_false, if_true, hparse] at hret
    exact absurd hret (by simp)
  | ok p =>
    obtain ⟨sensor_id, n⟩ := p
    by_cases hreg : is_id_registered s.registered_ids
        (string_of sensor_id (lib.spill .handle_request)) = true
    · cases hgen : generate_response lib s msg with
      | error e =>
        simp only [handle_message, htag, hne, if_false, if_true, hparse, hreg, not_true,
          hgen] at hret
        exact absurd hret (by simp)
      | ok q =>
        obtain ⟨response, s1⟩ := q
        have := generate_response_session lib s s1 msg response hgen
        simp [handle_message, htag, hne, hparse, hreg, hgen, listen_for_messages, send_message,
          this.1, this.2]
    · simp [handle_message, htag, hne, hparse, hreg, listen_for_messages, send_message]


theorem write_handler_arms_read {D : Type} (s : State D) (h : s.writes_pending ≠ []) :
    (write_handler s).reads_pending = s.reads_pending + 1 := by
  unfold write_handler
  cases hw : s.writes_pending with
  | nil => exact absurd hw h
  | cons msg later => rfl

theorem answered_get_arms_two_reads {D : Type} (lib : Lib D) (s : State D) (msg : Bytes)
    (htag : msg.take 3 = "GET".toList) (hret : (handle_message lib s msg).raised = none) :
    (handle_message lib s msg).state.reads_pending = s.reads_pending + 1
      ∧ (handle_message lib s msg).state.writes_pending ≠ []
      ∧ (write_handler (handle_message lib s msg).state).reads_pending
          = s.reads_pending + 2 := by
  obtain ⟨hreads, hwrites⟩ := answered_get_arms_read lib s msg htag hret
  have hne : (handle_message lib s msg).state.writes_pending ≠ [] := by
    intro h
    rw [h] at hwrites
    simp at hwrites
  exact ⟨hreads, hne, by rw [write_handler_arms_read _ hne, hreads]⟩

/-! ## Claims C1 to C3: what `GET` answers -/

/-- Claim C1, amended. For every library, registry and files (a file for the id may exist),
and every frame `GET|<id>|<count>\r\n` with a valid id (at most 31 bytes, no `|`, no NUL) and
a decimal count of at most `INT_MAX`: when the id is not registered, `handle_message` returns
without an exception, starts exactly one write, of `ERROR|INVALID_SENSOR_ID\r\n`, and leaves
registry and files unchanged. -/
theorem get_unknown_sensor_is_refused {D : Type} (lib : Lib D) (s : State D)
    (id count : Bytes) (hid : valid_id id) (hcount : decimal count)
    (hmax : (digits_value count : Int) ≤ INT_MAX) (hunknown : id ∉ s.registered_ids) :
    (handle_message lib s (get_frame id count)).raised = none
      ∧ (handle_message lib s (get_frame id count)).state.writes_pending
          = s.writes_pending ++ [INVALID_SENSOR_MESSAGE]
      ∧ (handle_message lib s (get_frame id count)).state.registered_ids = s.registered_ids
      ∧ (handle_message lib s (get_frame id count)).state.files = s.files := by
  have hne : "GET".toList ≠ "LOG".toList := by decide
  simp [handle_message, take_get_frame, hne, parse_request_frame id count hid.2.1 hcount hmax,
    string_of_strncpy id _ hid.1 hid.2.2, is_id_registered, hunknown, listen_for_messages,
    send_message]

/-- Claim C1 at `GET|s1|0` on a restarted server: `s1.dat` exists, `s1` is not registered, and
the answer is the error frame. -/
theorem get_unknown_sensor_is_refused_witness :
    (handle_message Reference.lib Reference.restarted (get_frame "s1".toList "0".toList)).raised
        = none
      ∧ (handle_message Reference.lib Reference.restarted
          (get_frame "s1".toList "0".toList)).state.writes_pending
          = Reference.restarted.writes_pending ++ [INVALID_SENSOR_MESSAGE]
      ∧ (handle_message Reference.lib Reference.restarted
          (get_frame "s1".toList "0".toList)).state.registered_ids
          = Reference.restarted.registered_ids
      ∧ (handle_message Reference.lib Reference.restarted
          (get_frame "s1".toList "0".toList)).state.files = Reference.restarted.files :=
  get_unknown_sensor_is_refused Reference.lib Reference.restarted "s1".toList "0".toList
    (by decide) (by decide) (by decide) (by decide)

/-- Claim C1 fails outside the `int` range and for an id with a NUL byte. For
`GET|unknown|2147483648` `std::stoi` throws `out_of_range` and nothing is written. And once
`a` is registered, a `GET` whose id is `a`, NUL, `b` (three bytes, not registered) is looked up
as `a` and answered with the records of `a`. -/
theorem get_count_beyond_int_throws :
    (handle_message Reference.lib Reference.fresh
        (get_frame "unknown".toList "2147483648".toList)).raised = some Exn.out_of_range
      ∧ (handle_message Reference.lib Reference.fresh
        (get_frame "unknown".toList "2147483648".toList)).state.writes_pending = []
      ∧ (handle_message Reference.lib Reference.fresh
          "LOG|a|2024-01-01T00:00:00|21.5\r\n".toList).state.registered_ids = ["a".toList]
      ∧ (handle_message Reference.lib
          (handle_message Reference.lib Reference.fresh
            "LOG|a|2024-01-01T00:00:00|21.5\r\n".toList).state
          (get_frame ['a', NUL, 'b'] "1".toList)).state.writes_pending
          = ["Sensor: a, Tempo: 2024-01-01T00:00:00, Valor: 21.500000\n".toList] := by
  decide

/-- Claim C2, amended. A `LOG` frame with a valid id and fields that parse, for a sensor whose
file is absent or empty, followed by `GET|<id>|<n>` with `1 ≤ n ≤ INT_MAX`: neither call
throws, and the one response written is exactly one line, the encoding of the submitted id,
the parsed timestamp and the parsed reading. -/
theorem logged_reading_is_returned {D : Type} (lib : Lib D) (s : State D) (id count : Bytes)
    (r : Submission D) (hid : valid_id id) (hr : r.valid lib)
    (hfile : s.files (id ++ ".dat".toList) = .missing ∨ s.files (id ++ ".dat".toList) = .data [])
    (hcount : decimal count) (hpos : 1 ≤ digits_value count)
    (hmax : (digits_value count : Int) ≤ INT_MAX) :
    (handle_message lib s (r.frame id)).raised = none
      ∧ (handle_message lib (handle_message lib s (r.frame id)).state
          (get_frame id count)).raised = none
      ∧ (handle_message lib (handle_message lib s (r.frame id)).state
          (get_frame id count)).state.writes_pending
          = s.writes_pending ++ [encoded_line lib id (parse_time lib r.timestamp) r.value] := by
  have hopen : s.files (id ++ ".dat".toList) ≠ .blocked := by
    rcases hfile with h | h <;> rw [h] <;> exact fun e => FileState.noConfusion e
  have hrecords : (s.files (id ++ ".dat".toList)).records = [] := by
    rcases hfile with h | h <;> rw [h] <;> rfl
  have hlog := handle_message_log lib s id r hid hr hopen
  rw [hlog]
  have hreg : id ∈ (if id ∈ s.registered_ids then s.registered_ids
      else s.registered_ids ++ [id]) := by
    by_cases h : id ∈ s.registered_ids <;> simp [h]
  have hget := handle_message_get lib
    { s with
      registered_ids :=
        if id ∈ s.registered_ids then s.registered_ids else s.registered_ids ++ [id]
      files := append_record s.files (id ++ ".dat".toList) (r.entry lib id)
      reads_pending := s.reads_pending + 1 }
    id count hid hcount hmax hreg [r.entry lib id]
    (by simp only [append_record_same, hrecords, List.nil_append])
  rw [hget]
  obtain ⟨k, hk⟩ : ∃ k, digits_value count = k + 1 := ⟨digits_value count - 1, by omega⟩
  simp [hk, response_line_entry lib id r hid]

/-- Claim C2 at `LOG|temp1|2024-01-01T00:00:00|21.5` followed by `GET|temp1|3` on a fresh
server. -/
theorem logged_reading_is_returned_witness :
    (handle_message Reference.lib Reference.fresh
        (Submission.frame "temp1".toList
          ⟨"2024-01-01T00:00:00".toList, "21.5".toList, 21500000⟩)).raised = none
      ∧ (handle_message Reference.lib
          (handle_message Reference.lib Reference.fresh
            (Submission.frame "temp1".toList
              ⟨"2024-01-01T00:00:00".toList, "21.5".toList, 21500000⟩)).state
          (get_frame "temp1".toList "3".toList)).raised = none
      ∧ (handle_message Reference.lib
          (handle_message Reference.lib Reference.fresh
            (Submission.frame "temp1".toList
              ⟨"2024-01-01T00:00:00".toList, "21.5".toList, 21500000⟩)).state
          (get_frame "temp1".toList "3".toList)).state.writes_pending
          = Reference.fresh.writes_pending ++ [encoded_line Reference.lib "temp1".toList
              (parse_time Reference.lib "2024-01-01T00:00:00".toList) 21500000] :=
  logged_reading_is_returned Reference.lib Reference.fresh "temp1".toList "3".toList
    ⟨"2024-01-01T00:00:00".toList, "21.5".toList, 21500000⟩
    (by decide) (by decide) (Or.inl rfl) (by decide) (by decide) (by decide)

/-- Claim C2 fails when the sensor is unknown to the registry but its file survives from an
earlier run: after `LOG|s1|2024-01-01T00:00:00|2.0`, the response to `GET|s1|1` is the old
record of the file, not the reading just submitted. -/
theorem get_after_restart_returns_old_record :
    Reference.restarted.registered_ids = []
      ∧ (handle_message Reference.lib
          (handle_message Reference.lib Reference.restarted
            (log_frame "s1".toList "2024-01-01T00:00:00".toList "2.0".toList)).state
          (get_frame "s1".toList "1".toList)).state.writes_pending
          = ["Sensor: s1, Tempo: 2023-06-01T12:00:00, Valor: 1.000000\n".toList] := by
  decide

/-- Claim C3, amended. From a state where the sensor has no file, after one or more valid
`LOG` frames for `id` handled in the order `rs`, the response to `GET|<id>|<n>` with
`0 ≤ n ≤ INT_MAX` is the concatenation of the encoded lines of the first `min n N` submissions
in arrival order; nothing throws, and the timestamps play no part in the order. -/
theorem get_returns_first_records_in_arrival_order {D : Type} (lib : Lib D) (s : State D)
    (id count : Bytes) (rs : List (Submission D)) (hid : valid_id id)
    (hrs : ∀ r ∈ rs, r.valid lib) (hne : rs ≠ [])
    (hfile : s.files (id ++ ".dat".toList) = .missing)
    (hcount : decimal count) (hmax : (digits_value count : Int) ≤ INT_MAX) :
    (handle_all lib s (rs.map (Submission.frame id))).raised = none
      ∧ (handle_message lib (handle_all lib s (rs.map (Submission.frame id))).state
          (get_frame id count)).raised = none
      ∧ (handle_message lib (handle_all lib s (rs.map (Submission.frame id))).state
          (get_frame id count)).state.writes_pending
          = s.writes_pending ++ [((rs.take (digits_value count)).map
              (fun r => encoded_line lib id (parse_time lib r.timestamp) r.value)).flatten] := by
  have hopen : s.files (id ++ ".dat".toList) ≠ .blocked := by
    rw [hfile]; exact fun e => FileState.noConfusion e
  obtain ⟨h1, h2, h3, h4⟩ := handle_all_logs lib id hid rs hrs s hopen
  have hrecords : (s.files (id ++ ".dat".toList)).records = [] := by rw [hfile]; rfl
  have hstored := h4 hne
  rw [hrecords, List.nil_append] at hstored
  have hget := handle_message_get lib (handle_all lib s (rs.map (Submission.frame id))).state
    id count hid hcount hmax (h3 hne) _ hstored
  rw [hget]
  refine ⟨h1, rfl, ?_⟩
  simp only [h2, ← List.map_take, List.map_map]
  congr 3
  apply List.map_congr_left
  intro r _
  exact response_line_entry lib id r hid

/-- Claim C3 at two submissions whose timestamps run backwards, with the counts `1`: the
response is the line of the submission that arrived first. -/
theorem get_returns_first_records_in_arrival_order_witness :
    (handle_all Reference.lib Reference.fresh
        ([⟨"2024-01-01T00:05:00".toList, "22.0".toList, 22000000⟩,
          ⟨"2024-01-01T00:00:00".toList, "21.5".toList, 21500000⟩].map
            (Submission.frame "temp1".toList))).raised = none
      ∧ (handle_message Reference.lib
          (handle_all Reference.lib Reference.fresh
            ([⟨"2024-01-01T00:05:00".toList, "22.0".toList, 22000000⟩,
              ⟨"2024-01-01T00:00:00".toList, "21.5".toList, 21500000⟩].map
                (Submission.frame "temp1".toList))).state
          (get_frame "temp1".toList "1".toList)).raised = none
      ∧ (handle_message Reference.lib
          (handle_all Reference.lib Reference.fresh
            ([⟨"2024-01-01T00:05:00".toList, "22.0".toList, 22000000⟩,
              ⟨"2024-01-01T00:00:00".toList, "21.5".toList, 21500000⟩].map
                (Submission.frame "temp1".toList))).state
          (get_frame "temp1".toList "1".toList)).state.writes_pending
          = Reference.fresh.writes_pending
            ++ [((([⟨"2024-01-01T00:05:00".toList, "22.0".toList, 22000000⟩,
                    ⟨"2024-01-01T00:00:00".toList, "21.5".toList, 21500000⟩] :
                    List (Submission Int)).take (digits_value "1".toList)).map
                (fun r => encoded_line Reference.lib "temp1".toList
                  (parse_time Reference.lib r.timestamp) r.value)).flatten] :=
  get_returns_first_records_in_arrival_order Reference.lib Reference.fresh "temp1".toList
    "1".toList
    [⟨"2024-01-01T00:05:00".toList, "22.0".toList, 22000000⟩,
      ⟨"2024-01-01T00:00:00".toList, "21.5".toList, 21500000⟩]
    (by decide) (by decide) (List.cons_ne_nil _ _) rfl (by decide) (by decide)

/-- Claim C3 fails at both ends of its ranges. A count above `INT_MAX` makes `std::stoi` throw
and no response is written, although a record is stored; and with no `LOG` frame at all
(`N = 0`) the response to `GET|temp1|0` is the error frame, not an empty body. -/
theorem get_count_or_sensor_out_of_range :
    (handle_message Reference.lib
        (handle_all Reference.lib Reference.fresh
          [log_frame "temp1".toList "2024-01-01T00:00:00".toList "21.5".toList]).state
        (get_frame "temp1".toList "2147483648".toList)).raised = some Exn.out_of_range
      ∧ (handle_message Reference.lib
        (handle_all Reference.lib Reference.fresh
          [log_frame "temp1".toList "2024-01-01T00:00:00".toList "21.5".toList]).state
        (get_frame "temp1".toList "2147483648".toList)).state.writes_pending = []
      ∧ (handle_message Reference.lib (handle_all Reference.lib Reference.fresh []).state
        (get_frame "temp1".toList "0".toList)).state.writes_pending
          = [INVALID_SENSOR_MESSAGE] := by
  decide

/-! ## Claims C4 to C6: frames that are not well formed -/

/-- Claim C4, amended. A `LOG` frame whose reading field `std::stod` rejects leaves the
registry and the files as they were: the sensor is not registered and nothing is created or
appended. -/
theorem log_with_rejected_reading_stores_nothing {D : Type} (lib : Lib D) (s : State D)
    (id ts reading : Bytes) (e : Exn) (hid : '|' ∉ id) (hts : '|' ∉ ts) (hrd : '|' ∉ reading)
    (hbad : lib.stod (reading ++ "\r\n".toList) = .error e) :
    (handle_message lib s (log_frame id ts reading)).state.registered_ids = s.registered_ids
      ∧ (handle_message lib s (log_frame id ts reading)).state.files = s.files := by
  have hparse := parse_log_entry_frame lib id ts reading hid hts hrd
  rw [hbad] at hparse
  simp only at hparse
  simp only [handle_message, take_log_frame, if_true, hparse, and_self]

/-- Claim C4 at `LOG|temp1|2024-01-01T00:00:00|abc` on a fresh server. -/
theorem log_with_rejected_reading_stores_nothing_witness :
    (handle_message Reference.lib Reference.fresh
        (log_frame "temp1".toList "2024-01-01T00:00:00".toList
          "abc".toList)).state.registered_ids = Reference.fresh.registered_ids
      ∧ (handle_message Reference.lib Reference.fresh
        (log_frame "temp1".toList "2024-01-01T00:00:00".toList "abc".toList)).state.files
          = Reference.fresh.files :=
  log_with_rejected_reading_stores_nothing Reference.lib Reference.fresh "temp1".toList
    "2024-01-01T00:00:00".toList "abc".toList Exn.invalid_argument
    (by decide) (by decide) (by decide) (by decide)

/-- Claim C4 fails for the other two kinds of malformed frame. A `LOG` frame with three fields
is stored with the reading `std::stod` finds at the start of the timestamp field (2024), and a
`LOG` frame whose timestamp does not parse is stored with the time `std::mktime` gives for
the zeroed `tm`; both sensors are registered. -/
theorem malformed_log_is_stored :
    (handle_message Reference.lib Reference.fresh
        "LOG|s1|2024-01-01T00:00:00\r\n".toList).state.registered_ids = ["s1".toList]
      ∧ (handle_message Reference.lib Reference.fresh
        "LOG|s1|2024-01-01T00:00:00\r\n".toList).state.files "s1.dat".toList
          = .data [⟨strncpy "s1".toList 32, 1704067200, 2024000000⟩]
      ∧ (handle_message Reference.lib Reference.fresh
        "LOG|s2|yesterday|1.5\r\n".toList).state.registered_ids = ["s2".toList]
      ∧ (handle_message Reference.lib Reference.fresh
        "LOG|s2|yesterday|1.5\r\n".toList).state.files "s2.dat".toList
          = .data [⟨strncpy "s2".toList 32, -2209075200, 1500000⟩] := by
  decide

/-- Claim C5 fails on the code: nothing catches the exceptions of `std::stoi` and `std::stod`.
On every platform and in every state, a `GET` whose count is not a number and a `GET` without
a count field leave `handle_message` by `invalid_argument`, and the read handler then ends
without arming the next read; on the reference platform so does a `LOG` whose reading is not a
number. -/
theorem malformed_frame_throws {D : Type} (lib : Lib D) (s : State D) :
    (handle_message lib s "GET|temp1|abc\r\n".toList).raised = some Exn.invalid_argument
      ∧ (handle_message lib s "GET|temp1\r\n".toList).raised = some Exn.invalid_argument
      ∧ (read_handler lib { s with input_buffer := "GET|temp1|abc\r\n".toList }).raised
          = some Exn.invalid_argument
      ∧ (read_handler lib { s with input_buffer := "GET|temp1|abc\r\n".toList }).state.reads_pending
          = s.reads_pending - 1
      ∧ (handle_message Reference.lib Reference.fresh
          "LOG|temp1|2024-01-01T00:00:00|abc\r\n".toList).raised = some Exn.invalid_argument := by
  refine ⟨rfl, rfl, rfl, rfl, by decide⟩

/-- Claim C6, amended. A frame whose first three bytes are neither `LOG` nor `GET` (a shorter
frame included) is dropped in silence: `handle_message` returns without an exception, starts
no write, leaves registry and files unchanged, and arms the next read. -/
theorem unknown_command_is_ignored {D : Type} (lib : Lib D) (s : State D) (msg : Bytes)
    (hlog : msg.take 3 ≠ "LOG".toList) (hget : msg.take 3 ≠ "GET".toList) :
    (handle_message lib s msg).raised = none
      ∧ (handle_message lib s msg).state.writes_pending = s.writes_pending
      ∧ (handle_message lib s msg).state.registered_ids = s.registered_ids
      ∧ (handle_message lib s msg).state.files = s.files
      ∧ (handle_message lib s msg).state.reads_pending = s.reads_pending + 1 := by
  simp only [handle_message, hlog, hget, if_false, listen_for_messages, and_self]

/-- Claim C6 at the frame that holds the delimiter only, two bytes long. -/
theorem unknown_command_is_ignored_witness :
    (handle_message Reference.lib Reference.fresh "\r\n".toList).raised = none
      ∧ (handle_message Reference.lib Reference.fresh "\r\n".toList).state.writes_pending
          = Reference.fresh.writes_pending
      ∧ (handle_message Reference.lib Reference.fresh "\r\n".toList).state.registered_ids
          = Reference.fresh.registered_ids
      ∧ (handle_message Reference.lib Reference.fresh "\r\n".toList).state.files
          = Reference.fresh.files
      ∧ (handle_message Reference.lib Reference.fresh "\r\n".toList).state.reads_pending
          = Reference.fresh.reads_pending + 1 :=
  unknown_command_is_ignored Reference.lib Reference.fresh "\r\n".toList (by decide) (by decide)

/-- Claim C6 fails on the error frame: after `PUT|temp1|1` no write has been started. -/
theorem unknown_command_gets_no_error_frame :
    (handle_message Reference.lib Reference.fresh "PUT|temp1|1\r\n".toList).raised = none
      ∧ (handle_message Reference.lib Reference.fresh
          "PUT|temp1|1\r\n".toList).state.writes_pending = [] := by
  decide

/-! ## Claims C7 and C9: registry and stored records -/

/-- Claim C8 fails on the code: the read handler takes the whole of `input_buffer`, not the
bytes up to the first `\r\n`. After any read event the buffer is empty. With a `LOG` frame and
a `GET` frame in the buffer, one read event hands both to `handle_message` as one message (as
the line printed on `std::cout` shows), the `LOG` is stored, and the `GET` is never answered:
no write is started and nothing is left for the one read that is armed. -/
theorem read_event_drains_the_buffer {D : Type} (lib : Lib D) (s : State D) :
    (read_handler lib s).state.input_buffer = []
      ∧ (read_handler Reference.lib
          { Reference.fresh with
            input_buffer :=
              "LOG|temp1|2024-01-01T00:00:00|21.5\r\nGET|temp1|1\r\n".toList }).state.cout
          = ["Mensagem recebida: LOG|temp1|2024-01-01T00:00:00|21.5\r\nGET|temp1|1\r\n".toList]
      ∧ (read_handler Reference.lib
          { Reference.fresh with
            input_buffer :=
              "LOG|temp1|2024-01-01T00:00:00|21.5\r\nGET|temp1|1\r\n".toList }).state.files
            "temp1.dat".toList
          = .data [⟨strncpy "temp1".toList 32, 1704067200, 21500000⟩]
      ∧ (read_handler Reference.lib
          { Reference.fresh with
            input_buffer :=
              "LOG|temp1|2024-01-01T00:00:00|21.5\r\nGET|temp1|1\r\n".toList }
          ).state.writes_pending = []
      ∧ (read_handler Reference.lib
          { Reference.fresh with
            input_buffer :=
              "LOG|temp1|2024-01-01T00:00:00|21.5\r\nGET|temp1|1\r\n".toList }
          ).state.reads_pending = 1 := by
  refine ⟨?_, by decide, by decide, by decide, by decide⟩
  unfold read_handler
  rw [handle_message_input_buffer]

/-- Claim C10 fails on the code: `handle_message` calls `listen_for_messages` after
`send_message` has only started the write, and the write's completion handler calls it again.
On every platform, every `GET` message that is answered leaves one more read outstanding while
its write is unfinished, and two more once that write completes. So a session that has one
read outstanding and receives `GET|unknown|1` has, after the read handler, one read
outstanding next to the unfinished write, and two reads outstanding when the write is done. -/
theorem get_arms_two_reads {D : Type} (lib : Lib D) :
    (∀ (s : State D) (msg : Bytes), msg.take 3 = "GET".toList →
        (handle_message lib s msg).raised = none →
        (handle_message lib s msg).state.reads_pending = s.reads_pending + 1
          ∧ (handle_message lib s msg).state.writes_pending ≠ []
          ∧ (write_handler (handle_message lib s msg).state).reads_pending
              = s.reads_pending + 2)
      ∧ Reference.fresh.reads_pending = 1
      ∧ (read_handler Reference.lib
          { Reference.fresh with input_buffer := "GET|unknown|1\r\n".toList }).state.writes_pending
          = [INVALID_SENSOR_MESSAGE]
      ∧ (read_handler Reference.lib
          { Reference.fresh with input_buffer := "GET|unknown|1\r\n".toList }).state.reads_pending
          = 1
      ∧ (write_handler (read_handler Reference.lib
          { Reference.fresh with input_buffer := "GET|unknown|1\r\n".toList }).state).reads_pending
          = 2
      ∧ (write_handler (read_handler Reference.lib
          { Reference.fresh with input_buffer := "GET|unknown|1\r\n".toList }).state).writes_pending
          = [] :=
  ⟨answered_get_arms_two_reads lib, by decide⟩

/-! ## Further properties of the log store -/

/-- A valid `LOG` frame whose file can be opened is stored without a response: no exception,
no write started, the sensor is registered, its record is appended to `<id>.dat`, and one read
is armed. -/
theorem log_is_stored_in_silence {D : Type} (lib : Lib D) (s : State D) (id : Bytes)
    (r : Submission D) (hid : valid_id id) (hr : r.valid lib)
    (hfile : s.files (id ++ ".dat".toList) ≠ .blocked) :
    (handle_message lib s (r.frame id)).raised = none
      ∧ (handle_message lib s (r.frame id)).state.writes_pending = s.writes_pending
      ∧ id ∈ (handle_message lib s (r.frame id)).state.registered_ids
      ∧ (handle_message lib s (r.frame id)).state.files (id ++ ".dat".toList)
          = .data ((s.files (id ++ ".dat".toList)).records ++ [r.entry lib id])
      ∧ (handle_message lib s (r.frame id)).state.reads_pending = s.reads_pending + 1 := by
  rw [handle_message_log lib s id r hid hr hfile]
  refine ⟨rfl, rfl, ?_, append_record_same _ _ _, rfl⟩
  by_cases h : id ∈ s.registered_ids <;> simp [h]

/-- The frame `LOG|temp1|2024-01-01T00:00:00|21.5` on a fresh server. -/
theorem log_is_stored_in_silence_witness :
    (handle_message Reference.lib Reference.fresh
        (Submission.frame "temp1".toList
          ⟨"2024-01-01T00:00:00".toList, "21.5".toList, 21500000⟩)).state.writes_pending
        = Reference.fresh.writes_pending :=
  (log_is_stored_in_silence Reference.lib Reference.fresh "temp1".toList
    ⟨"2024-01-01T00:00:00".toList, "21.5".toList, 21500000⟩ (by decide) (by decide)
    (by decide)).2.1

/-- Registration does not wait for the append: a valid `LOG` frame whose file cannot be opened
registers the sensor all the same; the files are unchanged, the failure is printed on
`std::cerr`, and nothing is sent. -/
theorem log_is_registered_when_append_fails {D : Type} (lib : Lib D) (s : State D)
    (id : Bytes) (r : Submission D) (hid : valid_id id) (hr : r.valid lib)
    (hfile : s.files (id ++ ".dat".toList) = .blocked) :
    (handle_message lib s (r.frame id)).raised = none
      ∧ id ∈ (handle_message lib s (r.frame id)).state.registered_ids
      ∧ (handle_message lib s (r.frame id)).state.files = s.files
      ∧ (handle_message lib s (r.frame id)).state.cerr
          = s.cerr ++ ["Erro ao salvar dados do log.".toList]
      ∧ (handle_message lib s (r.frame id)).state.writes_pending = s.writes_pending := by
  have htag : (r.frame id).take 3 = "LOG".toList := rfl
  have hstore : ∀ s1 : State D, s1.files = s.files →
      store_log_data lib s1 (r.frame id)
        = ⟨log_error s1 "Erro ao salvar dados do log.".toList, none⟩ := by
    intro s1 h1
    simp only [store_log_data, parse_submission lib id r hid hr, Submission.entry,
      string_of_strncpy id _ hid.1 hid.2.2, h1, hfile]
  simp only [handle_message, htag, if_true, parse_submission lib id r hid hr, Submission.entry,
    string_of_strncpy id _ hid.1 hid.2.2, is_id_registered]
  by_cases hreg : id ∈ s.registered_ids
  · simp only [hreg, decide_True, not_true, if_false]
    rw [hstore s rfl]
    exact ⟨rfl, hreg, rfl, rfl, rfl⟩
  · simp only [hreg, decide_False, Bool.false_eq_true, not_false_eq_true, if_true]
    rw [hstore { s with registered_ids := s.registered_ids ++ [id] } rfl]
    exact ⟨rfl, by simp [listen_for_messages, log_error], rfl, rfl, rfl⟩

/-- The frame `LOG|temp1|2024-01-01T00:00:00|21.5` on a disk where nothing can be opened. -/
theorem log_is_registered_when_append_fails_witness :
    "temp1".toList ∈ (handle_message Reference.lib Reference.locked
        (Submission.frame "temp1".toList
          ⟨"2024-01-01T00:00:00".toList, "21.5".toList, 21500000⟩)).state.registered_ids :=
  (log_is_registered_when_append_fails Reference.lib Reference.locked "temp1".toList
    ⟨"2024-01-01T00:00:00".toList, "21.5".toList, 21500000⟩ (by decide) (by decide)
    (by decide)).2.1

/-- A `GET` for a registered sensor whose file cannot be opened (it is absent or blocked) is
answered with an empty response, not an error frame, and the failure is printed on
`std::cerr`. -/
theorem get_without_file_is_empty {D : Type} (lib : Lib D) (s : State D) (id count : Bytes)
    (hid : valid_id id) (hcount : decimal count) (hmax : (digits_value count : Int) ≤ INT_MAX)
    (hreg : id ∈ s.registered_ids)
    (hfile : s.files (id ++ ".dat".toList) = .missing
      ∨ s.files (id ++ ".dat".toList) = .blocked) :
    (handle_message lib s (get_frame id count)).raised = none
      ∧ (handle_message lib s (get_frame id count)).state.writes_pending
          = s.writes_pending ++ [[]]
      ∧ (handle_message lib s (get_frame id count)).state.cerr
          = s.cerr ++ ["Erro ao abrir arquivo para leitura.".toList] := by
  have hne : "GET".toList ≠ "LOG".toList := by decide
  have hgen : generate_response lib s (get_frame id count)
      = .ok ([], log_error s "Erro ao abrir arquivo para leitura.".toList) := by
    simp only [generate_response, parse_request_frame id count hid.2.1 hcount hmax,
      string_of_strncpy id _ hid.1 hid.2.2]
    rcases hfile with h | h <;> rw [h]
  simp only [handle_message, take_get_frame, hne, if_false, if_true,
    parse_request_frame id count hid.2.1 hcount hmax, string_of_strncpy id _ hid.1 hid.2.2,
    is_id_registered, hreg, decide_True, not_true, hgen]
  exact ⟨trivial, rfl, rfl⟩

/-- The frame `GET|temp1|5` after a `LOG` for `temp1` that could not be stored. -/
theorem get_without_file_is_empty_witness :
    (handle_message Reference.lib
        (handle_message Reference.lib Reference.locked
          "LOG|temp1|2024-01-01T00:00:00|21.5\r\n".toList).state
        (get_frame "temp1".toList "5".toList)).state.writes_pending = [[]] :=
  (get_without_file_is_empty Reference.lib
    (handle_message Reference.lib Reference.locked
      "LOG|temp1|2024-01-01T00:00:00|21.5\r\n".toList).state
    "temp1".toList "5".toList (by decide) (by decide) (by decide) (by decide)
    (Or.inr rfl)).2.1

end DataAcquisition
